import Mathlib

/-!
Shallow embedding of `src/examples/cpp/common/GlfwApp.cpp` (the `GlfwApp`
application-scaffolding class over GLFW).

The stateful C++ code is modelled by explicit state passing: the mutable
members of `GlfwApp` (the window-close flag set through
`glfwSetWindowShouldClose`, the `frame` counter, the FPS bookkeeping) together
with the loop-local variables of `GlfwApp::run` (`framecount`, `start`) form a
`LoopState`.  External collaborators (GLFW event delivery, the elapsed-time
source, errors raised by the overridable hooks) are supplied by an environment
(`RunEnv` / `IterInput`).  `run` produces a trace of observable actions, a
final state, the loop outcome and the value the C++ function returns (or the
exception it lets escape).

Machine integers (`int`, `long`) are modelled as `Int`; the spec itself states
the frame counter is assumed to fit the platform integer range for the process
lifetime, so wraparound is not modelled.  The `float` FPS value is represented
by the pair (framecount, elapsed milliseconds) it is computed from, which is
exactly the information the floating-point division consumes.
-/

/-- GLFW action code for a key release (`GLFW_RELEASE`). -/
def GLFW_RELEASE : Int := 0

/-- GLFW action code for a discrete key press (`GLFW_PRESS`). -/
def GLFW_PRESS : Int := 1

/-- GLFW action code for a key auto-repeat (`GLFW_REPEAT`). -/
def GLFW_REPEAT : Int := 2

/-- GLFW key code for the escape key (`GLFW_KEY_ESCAPE`). -/
def GLFW_KEY_ESCAPE : Int := 256

/-- GLFW key code for the letter S (`GLFW_KEY_S`). -/
def GLFW_KEY_S : Int := 83

/-- GLFW modifier bit for shift (`GLFW_MOD_SHIFT`). -/
def GLFW_MOD_SHIFT : Int := 1

/-- A key event as delivered by GLFW to the `KeyCallback` trampoline
(GlfwApp.cpp lines 23-26): key code, scancode, action, modifier bits. -/
structure KeyEvent where
  key : Int
  scancode : Int
  action : Int
  mods : Int
deriving DecidableEq

/-- C++ exception kinds relevant to `GlfwApp::run`: `std::runtime_error`
(the kind `FAIL` raises and the `catch` clause at lines 109-111 handles)
versus any other exception kind, which that clause does not match. -/
inductive CppError where
  | runtimeError (msg : String)
  | otherError (msg : String)
deriving DecidableEq

/-- The mutable state visible to `GlfwApp::run` and the default handlers:
the GLFW window-should-close flag, the `frame` member, a tally of
`screenshot()` invocations (the capture hook is a stub, so the invocation
count is its only observable), and `run`'s locals `framecount` and `start`
plus the `fps` member.

Modelled from the spec: the initial values of the `frame` and `fps` members
are set in the class header, which is not among the sources; the spec states
the frame counter starts at 0, and `fps` is modelled as `none` until first
recomputed. -/
structure LoopState where
  shouldClose : Bool
  frame : Int
  screenshots : Nat
  framecount : Int
  start : Int
  fps : Option (Int × Int)
deriving DecidableEq

/-- `GlfwApp::getFrame` (GlfwApp.cpp lines 116-118): returns the `frame`
member; a pure read with no side effects. -/
def getFrame (s : LoopState) : Int :=
  s.frame

/-- `GlfwApp::onKey` (GlfwApp.cpp lines 210-226), the default key handler:
non-press actions return immediately; a press of escape sets the
window-should-close flag (`glfwSetWindowShouldClose(window, 1)`); a press of
S with the shift modifier bit set invokes `screenshot()`; all other keys fall
through the `switch` unchanged. -/
def onKey (s : LoopState) (key _scancode action mods : Int) : LoopState :=
  if action ≠ GLFW_PRESS then s
  else if key = GLFW_KEY_ESCAPE then { s with shouldClose := true }
  else if key = GLFW_KEY_S then
    (if Int.land mods GLFW_MOD_SHIFT ≠ 0 then { s with screenshots := s.screenshots + 1 } else s)
  else s

/-- Observable actions of `GlfwApp::run` and the hooks it drives, in the
order the code performs them.  `createRenderingTarget` and `postCreate`
record whether the window handle is null at that point (for the
creation-failure analysis); `say` records a diagnostic message emitted via
`SAY`. -/
inductive Act where
  | preCreate
  | createRenderingTarget (returnedNull : Bool)
  | postCreate (windowIsNull : Bool)
  | initGl
  | shutdownGl
  | pollEvents
  | keyDispatch (e : KeyEvent)
  | update
  | draw
  | finishFrame
  | recomputeFPS
  | say (msg : String)
deriving DecidableEq

/-- Environment for one iteration of the frame loop: the key events GLFW
delivers during `glfwPollEvents()`, the value `Platform::elapsedMillis()`
returns at line 98, and an error optionally raised by the (overridable)
`update` hook — the default hooks in the source raise nothing, so `none`
models the class as given. -/
structure IterInput where
  events : List KeyEvent
  now : Int
  updateErr : Option CppError
deriving DecidableEq

/-- How the simulated loop ended: the close flag was observed (`closed`), the
scripted environment ran out while the loop would continue (`exhausted`, a
simulation cut, not a behavior of the code), or an exception unwound out of
the loop body (`errored`). -/
inductive LoopOutcome where
  | closed
  | exhausted
  | errored (e : CppError)
deriving DecidableEq

/-- Environment for a whole `run()` call: whether `createRenderingTarget`
returns a null handle, whether `glewInit()` inside `postCreate` fails
(returning nonzero, line 152), the initial `Platform::elapsedMillis()`
reading (line 91), and the per-iteration inputs. -/
structure RunEnv where
  windowIsNull : Bool
  glewInitFails : Bool
  startMillis : Int
  iters : List IterInput
deriving DecidableEq

/-- What `run()` hands back to its caller: a returned status code, an
exception that propagated uncaught, or `running` when the simulation script
was exhausted inside the loop. -/
inductive RunReturn where
  | returned (code : Int)
  | uncaught (e : CppError)
  | running
deriving DecidableEq

/-- Which path a simulated `run()` took. -/
inductive Outcome where
  | setupFailedNullWindow
  | setupFailedGlew
  | closed
  | running
  | errored (e : CppError)
deriving DecidableEq

/-- Result of a simulated `run()`: the action trace, the final state, the
path taken, and the value returned to (or exception escaping to) the caller. -/
structure RunResult where
  trace : List Act
  state : LoopState
  outcome : Outcome
  ret : RunReturn
deriving DecidableEq

/-- `glfwPollEvents()` as seen by the default class: each pending key event
is dispatched synchronously through the `KeyCallback` trampoline to
`onKey` (GlfwApp.cpp lines 23-26), in delivery order. -/
def dispatchEvents (s : LoopState) (evs : List KeyEvent) : LoopState :=
  evs.foldl (fun t e => onKey t e.key e.scancode e.action e.mods) s

/-- One execution of the loop body of `GlfwApp::run` (lines 92-107), entered
with the close flag already checked false: `glfwPollEvents()` (dispatching
each pending event to `onKey`), `++frame`, `update()`, `draw()`,
`finishFrame()`, then `now = elapsedMillis(); ++framecount;` and, when
`now - start >= 2000`, the FPS recomputation
(`fps = framecount / ((now - start)/1000.f)`, then `start = now;
framecount = 0;`).  Returns the iteration's action trace, the state after
the iteration, and the error the `update` hook raised, if any (in which case
`draw`/`finishFrame` and the FPS step do not run). -/
def loopIter (s : LoopState) (inp : IterInput) : List Act × LoopState × Option CppError :=
  let s₁ := dispatchEvents s inp.events
  let pollTrace := Act.pollEvents :: inp.events.map Act.keyDispatch
  let s₂ := { s₁ with frame := s₁.frame + 1 }
  match inp.updateErr with
  | some e => (pollTrace ++ [Act.update], s₂, some e)
  | none =>
    let s₃ := { s₂ with framecount := s₂.framecount + 1 }
    if inp.now - s₃.start ≥ 2000 then
      (pollTrace ++ [Act.update, Act.draw, Act.finishFrame, Act.recomputeFPS],
       { s₃ with fps := some (s₃.framecount, inp.now - s₃.start),
                 start := inp.now, framecount := 0 }, none)
    else
      (pollTrace ++ [Act.update, Act.draw, Act.finishFrame], s₃, none)

/-- The `while (!glfwWindowShouldClose(window))` loop of `GlfwApp::run`
(lines 92-107): the close flag is checked at each iteration boundary; an
exception from the body stops the loop and unwinds.  The scripted input list
bounds the simulation: running out of script with the flag still unset is
the `exhausted` cut. -/
def runLoop (inps : List IterInput) (s : LoopState) : List Act × LoopState × LoopOutcome :=
  match inps with
  | [] => if s.shouldClose then ([], s, LoopOutcome.closed) else ([], s, LoopOutcome.exhausted)
  | inp :: rest =>
    if s.shouldClose then ([], s, LoopOutcome.closed)
    else
      let r := loopIter s inp
      match r.2.2 with
      | some e => (r.1, r.2.1, LoopOutcome.errored e)
      | none =>
        let r₂ := runLoop rest r.2.1
        (r.1 ++ r₂.1, r₂.2.1, r₂.2.2)

/-- The state at loop entry: close flag unset, `frame` 0 (see `LoopState`),
no screenshots, `framecount = 0` and `start = Platform::elapsedMillis()`
(lines 90-91), `fps` not yet computed. -/
def initLoopState (startMillis : Int) : LoopState :=
  { shouldClose := false, frame := 0, screenshots := 0,
    framecount := 0, start := startMillis, fps := none }

/-- `GlfwApp::run` (GlfwApp.cpp lines 74-113).  Inside the `try`:
`preCreate()`, `window = createRenderingTarget(...)`, `postCreate()` — note
`postCreate` runs before the `if (!window)` check at line 80; `glewInit`
failure inside `postCreate` raises `FAIL("Failed to initialize GLEW")`
(line 153), and a null window then raises
`FAIL("Unable to create OpenGL window")` (line 81).  Both `FAIL`s occur
before the `Finally` guard at lines 86-88 is constructed, so neither runs
`shutdownGl`.  After `initGl()` the guard is installed and the frame loop
runs; on loop exit or on an exception unwinding from the body the guard
fires `shutdownGl` once.  The `catch (std::runtime_error&)` clause logs the
message via `SAY`; `run` then returns 0.  Exceptions of any other kind
propagate to the caller. -/
def run (env : RunEnv) : RunResult :=
  let setupTrace := [Act.preCreate, Act.createRenderingTarget env.windowIsNull,
                     Act.postCreate env.windowIsNull]
  let s₀ := initLoopState env.startMillis
  if env.glewInitFails then
    { trace := setupTrace ++ [Act.say "Failed to initialize GLEW"], state := s₀,
      outcome := Outcome.setupFailedGlew, ret := RunReturn.returned 0 }
  else if env.windowIsNull then
    { trace := setupTrace ++ [Act.say "Unable to create OpenGL window"], state := s₀,
      outcome := Outcome.setupFailedNullWindow, ret := RunReturn.returned 0 }
  else
    let r := runLoop env.iters s₀
    match r.2.2 with
    | LoopOutcome.closed =>
      { trace := setupTrace ++ [Act.initGl] ++ r.1 ++ [Act.shutdownGl], state := r.2.1,
        outcome := Outcome.closed, ret := RunReturn.returned 0 }
    | LoopOutcome.exhausted =>
      { trace := setupTrace ++ [Act.initGl] ++ r.1, state := r.2.1,
        outcome := Outcome.running, ret := RunReturn.running }
    | LoopOutcome.errored (CppError.runtimeError m) =>
      { trace := setupTrace ++ [Act.initGl] ++ r.1 ++ [Act.shutdownGl, Act.say m],
        state := r.2.1, outcome := Outcome.errored (CppError.runtimeError m),
        ret := RunReturn.returned 0 }
    | LoopOutcome.errored (CppError.otherError m) =>
      { trace := setupTrace ++ [Act.initGl] ++ r.1 ++ [Act.shutdownGl],
        state := r.2.1, outcome := Outcome.errored (CppError.otherError m),
        ret := RunReturn.uncaught (CppError.otherError m) }

/-- A key event that is neither an escape press nor a shift+S capture-combo
press: the default `onKey` treats it as a no-op. -/
def quietEvent (e : KeyEvent) : Prop :=
  ¬(e.action = GLFW_PRESS ∧ e.key = GLFW_KEY_ESCAPE) ∧
  ¬(e.action = GLFW_PRESS ∧ e.key = GLFW_KEY_S ∧ Int.land e.mods GLFW_MOD_SHIFT ≠ 0)

instance (e : KeyEvent) : Decidable (quietEvent e) := by
  unfold quietEvent; infer_instance

/-- An iteration input under which the loop body behaves as the unmodified
class does: the `update` hook raises nothing and no delivered event is an
escape press (so the close flag cannot be set by it). -/
def benignInput (inp : IterInput) : Prop :=
  inp.updateErr = none ∧
  ∀ e ∈ inp.events, ¬(e.action = GLFW_PRESS ∧ e.key = GLFW_KEY_ESCAPE)

instance (inp : IterInput) : Decidable (benignInput inp) := by
  unfold benignInput; infer_instance

/-- An abstract matrix value: the identity written by `.identity()`, the
orthographic projection written at lines 268-271 (its floating-point
entries, which depend only on the fixed bounds and the cached window aspect,
are abstracted away), or an arbitrary pre-existing stack entry. -/
inductive Mat where
  | identity
  | ortho
  | base (n : Nat)
deriving DecidableEq

/-- Modelled from the spec: the `MatrixStack` collaborator
(`Stacks::modelview()` / `Stacks::projection()`) is not among the sources.
Per the spec's scoped push/pop discipline it is a non-empty stack of
matrices: `push` duplicates the top entry, `pop` discards the top entry
(restoring what was below), and writing through `top()` replaces the top
entry in place. -/
structure MatrixStack where
  top : Mat
  rest : List Mat
deriving DecidableEq

/-- `MatrixStack::push`: duplicate the top entry. -/
def MatrixStack.push (s : MatrixStack) : MatrixStack :=
  ⟨s.top, s.top :: s.rest⟩

/-- `MatrixStack::pop`: discard the top entry, restoring the one below it
(kept unchanged on an empty remainder, which the discipline never hits). -/
def MatrixStack.pop (s : MatrixStack) : MatrixStack :=
  match s.rest with
  | [] => ⟨s.top, []⟩
  | m :: r => ⟨m, r⟩

/-- Assignment through `top()`: replace the top entry. -/
def MatrixStack.setTop (s : MatrixStack) (m : Mat) : MatrixStack :=
  ⟨m, s.rest⟩

/-- `GlfwApp::renderStringAt` (GlfwApp.cpp lines 264-276): push and overwrite
the modelview top with the identity, push and overwrite the projection top
with the orthographic matrix, call `oria::renderString` (the external
text-rendering collaborator, whose possible failure is the `renderErr`
argument), then `pr.pop(); mv.pop();`.  The pops are plain statements after
the call — there is no scope guard — so when the collaborator raises, the
exception propagates with both pops skipped.  Returns the final
(modelview, projection) stacks and the propagated error, if any. -/
def renderStringAt (renderErr : Option CppError) (mv pr : MatrixStack) :
    (MatrixStack × MatrixStack) × Option CppError :=
  let mv₁ := MatrixStack.setTop (MatrixStack.push mv) Mat.identity
  let pr₁ := MatrixStack.setTop (MatrixStack.push pr) Mat.ortho
  match renderErr with
  | some e => ((mv₁, pr₁), some e)
  | none => ((MatrixStack.pop mv₁, MatrixStack.pop pr₁), none)

/-! ## Helper lemmas -/

/-- `onKey` never touches the frame counter, the FPS bookkeeping fields or
the measurement start time. -/
theorem onKey_counters (s : LoopState) (k sc a m : Int) :
    (onKey s k sc a m).frame = s.frame ∧ (onKey s k sc a m).framecount = s.framecount ∧
    (onKey s k sc a m).start = s.start ∧ (onKey s k sc a m).fps = s.fps := by
  unfold onKey
  split
  · exact ⟨rfl, rfl, rfl, rfl⟩
  · split
    · exact ⟨rfl, rfl, rfl, rfl⟩
    · split
      · split
        · exact ⟨rfl, rfl, rfl, rfl⟩
        · exact ⟨rfl, rfl, rfl, rfl⟩
      · exact ⟨rfl, rfl, rfl, rfl⟩

/-- Event dispatch never touches the frame counter, the FPS bookkeeping
fields or the measurement start time. -/
theorem dispatchEvents_counters (evs : List KeyEvent) (s : LoopState) :
    (dispatchEvents s evs).frame = s.frame ∧
    (dispatchEvents s evs).framecount = s.framecount ∧
    (dispatchEvents s evs).start = s.start ∧ (dispatchEvents s evs).fps = s.fps := by
  induction evs generalizing s with
  | nil => exact ⟨rfl, rfl, rfl, rfl⟩
  | cons e t ih =>
    have h := onKey_counters s e.key e.scancode e.action e.mods
    have h₂ := ih (onKey s e.key e.scancode e.action e.mods)
    simp only [dispatchEvents, List.foldl_cons] at h₂ ⊢
    exact ⟨h₂.1.trans h.1, h₂.2.1.trans h.2.1, h₂.2.2.1.trans h.2.2.1,
           h₂.2.2.2.trans h.2.2.2⟩

/-- A key event that is not an escape press leaves the close flag alone. -/
theorem onKey_shouldClose_of_not_escape (s : LoopState) (k sc a m : Int)
    (h : ¬(a = GLFW_PRESS ∧ k = GLFW_KEY_ESCAPE)) :
    (onKey s k sc a m).shouldClose = s.shouldClose := by
  unfold onKey
  split
  · rfl
  · rename_i hp
    split
    · rename_i hk
      exact absurd ⟨not_not.mp hp, hk⟩ h
    · split
      · split
        · rfl
        · rfl
      · rfl

/-- Dispatching a batch of events none of which is an escape press leaves
the close flag alone. -/
theorem dispatchEvents_shouldClose_of_not_escape (evs : List KeyEvent) (s : LoopState) :
    (∀ e ∈ evs, ¬(e.action = GLFW_PRESS ∧ e.key = GLFW_KEY_ESCAPE)) →
    (dispatchEvents s evs).shouldClose = s.shouldClose := by
  induction evs generalizing s with
  | nil => intro _; rfl
  | cons e t ih =>
    intro h
    simp only [dispatchEvents, List.foldl_cons]
    have step := onKey_shouldClose_of_not_escape s e.key e.scancode e.action e.mods
      (h e (List.mem_cons_self e t))
    have tail := ih (onKey s e.key e.scancode e.action e.mods)
      (fun x hx => h x (List.mem_cons_of_mem e hx))
    simp only [dispatchEvents] at tail
    exact tail.trans step

/-- A quiet event (neither escape press nor shift+S press) is a no-op for
the default `onKey`. -/
theorem onKey_quiet (s : LoopState) (e : KeyEvent) (h : quietEvent e) :
    onKey s e.key e.scancode e.action e.mods = s := by
  obtain ⟨h₁, h₂⟩ := h
  unfold onKey
  split
  · rfl
  · rename_i hp
    have hp' : e.action = GLFW_PRESS := not_not.mp hp
    split
    · rename_i hk
      exact absurd ⟨hp', hk⟩ h₁
    · split
      · rename_i hk
        split
        · rename_i hm
          exact absurd ⟨hp', hk, hm⟩ h₂
        · rfl
      · rfl

/-! ## Claim theorems -/

/-- Claim C5: the default `onKey` handler invokes the capture hook
(`screenshot`) exactly once per discrete press event of the S key with the
shift modifier held, and never on release events, never for repeat or other
non-press actions, and never for other keys or for S without the modifier:
the screenshot tally grows by exactly one on a qualifying press and is
unchanged on every other event. -/
theorem onKey_screenshot_iff_combo (s : LoopState) (k sc a m : Int) :
    (onKey s k sc a m).screenshots =
      s.screenshots +
        (if a = GLFW_PRESS ∧ k = GLFW_KEY_S ∧ Int.land m GLFW_MOD_SHIFT ≠ 0 then 1 else 0) := by
  unfold onKey
  split
  · rename_i hp
    rw [if_neg (fun hc => hp hc.1), Nat.add_zero]
  · rename_i hp
    have hp' : a = GLFW_PRESS := not_not.mp hp
    split
    · rename_i hk
      rw [if_neg (fun hc => absurd (hk.symm.trans hc.2.1) (by decide)), Nat.add_zero]
    · split
      · rename_i hk
        split
        · rename_i hm
          rw [if_pos ⟨hp', hk, hm⟩]
        · rename_i hm
          rw [if_neg (fun hc => hm hc.2.2), Nat.add_zero]
      · rename_i hk
        rw [if_neg (fun hc => hk hc.2.1), Nat.add_zero]

/-- Claim C2 counterexample: with the text-rendering collaborator failing,
`renderStringAt` does not restore the matrix stacks to their pre-call
values — the pops at lines 274-275 are skipped during unwinding, so the
claim that the stacks are restored "including when the external
text-rendering collaborator fails" is false at this concrete input. -/
theorem renderStringAt_not_restored_on_failure :
    ¬((renderStringAt (some (CppError.runtimeError "render failed"))
        ⟨Mat.base 0, []⟩ ⟨Mat.base 1, []⟩).1 = (⟨Mat.base 0, []⟩, ⟨Mat.base 1, []⟩)) := by
  decide

/-- Claim C2 (amended): `renderStringAt` restores the projection and
modelview stacks to their pre-call values on normal return; when the
external text-rendering collaborator fails, the exception propagates with
both pops skipped, leaving the pushed identity/orthographic entries on top
of the stacks. -/
theorem renderStringAt_restore_semantics :
    (∀ mv pr : MatrixStack,
      (renderStringAt none mv pr).1 = (mv, pr) ∧ (renderStringAt none mv pr).2 = none) ∧
    (∀ (mv pr : MatrixStack) (e : CppError),
      (renderStringAt (some e) mv pr).1 =
        (⟨Mat.identity, mv.top :: mv.rest⟩, ⟨Mat.ortho, pr.top :: pr.rest⟩) ∧
      (renderStringAt (some e) mv pr).2 = some e) := by
  constructor
  · intro mv pr
    exact ⟨rfl, rfl⟩
  · intro mv pr e
    exact ⟨rfl, rfl⟩

/-- Claim C4: in the default `onKey` handler, the close flag becomes set iff
the event is a press of the escape key (any modifiers); dispatching any
sequence of events containing no escape press and no shift+S press leaves
the state (close flag and screenshot tally included) exactly unchanged; and
once the close flag is set, the frame loop performs no further iterations
(no further `update`/`draw`). -/
theorem close_flag_semantics :
    (∀ (s : LoopState) (k sc a m : Int), s.shouldClose = false →
      ((onKey s k sc a m).shouldClose = true ↔ (a = GLFW_PRESS ∧ k = GLFW_KEY_ESCAPE))) ∧
    (∀ (s : LoopState) (evs : List KeyEvent), (∀ e ∈ evs, quietEvent e) →
      dispatchEvents s evs = s) ∧
    (∀ (inps : List IterInput) (s : LoopState), s.shouldClose = true →
      runLoop inps s = ([], s, LoopOutcome.closed)) := by
  refine ⟨?_, ?_, ?_⟩
  · intro s k sc a m hs
    constructor
    · intro h
      by_contra hc
      rw [onKey_shouldClose_of_not_escape s k sc a m hc, hs] at h
      exact Bool.false_ne_true h
    · rintro ⟨ha, hk⟩
      subst ha; subst hk
      unfold onKey
      rw [if_neg (by decide : ¬(GLFW_PRESS ≠ GLFW_PRESS)), if_pos rfl]
  · intro s evs
    induction evs generalizing s with
    | nil => intro _; rfl
    | cons e t ih =>
      intro h
      simp only [dispatchEvents, List.foldl_cons]
      rw [onKey_quiet s e (h e (List.mem_cons_self e t))]
      exact ih s (fun x hx => h x (List.mem_cons_of_mem e hx))
  · intro inps s h
    cases inps with
    | nil => simp [runLoop, h]
    | cons a t => simp [runLoop, h]

/-- Witness for `close_flag_semantics`: an escape press from the initial
state sets the close flag; a shift-less S press batch is a no-op; a closed
state stops the loop immediately. -/
theorem close_flag_semantics_witness :
    (onKey (initLoopState 0) GLFW_KEY_ESCAPE 0 GLFW_PRESS 0).shouldClose = true ∧
    dispatchEvents (initLoopState 0) [⟨GLFW_KEY_S, 0, GLFW_PRESS, 0⟩] = initLoopState 0 ∧
    runLoop [] { initLoopState 0 with shouldClose := true } =
      ([], { initLoopState 0 with shouldClose := true }, LoopOutcome.closed) :=
  ⟨(close_flag_semantics.1 (initLoopState 0) GLFW_KEY_ESCAPE 0 GLFW_PRESS 0 rfl).mpr
      (by decide),
   close_flag_semantics.2.1 (initLoopState 0) [⟨GLFW_KEY_S, 0, GLFW_PRESS, 0⟩] (by decide),
   close_flag_semantics.2.2 [] { initLoopState 0 with shouldClose := true } rfl⟩

/-- Claim C3: every iteration of the frame loop whose hooks raise nothing
(as the default hooks do) performs, in this fixed order: poll pending input
events, dispatching each synchronously to the key hook before `update` and
`draw` run; then the `update` hook; then `draw`; then `finishFrame`; and
finally the FPS recomputation exactly when the 2000 ms measurement window
has elapsed. -/
theorem loop_iteration_order (s : LoopState) (inp : IterInput) (h : inp.updateErr = none) :
    (loopIter s inp).1 =
      [Act.pollEvents] ++ inp.events.map Act.keyDispatch ++
      [Act.update, Act.draw, Act.finishFrame] ++
      (if inp.now - s.start ≥ 2000 then [Act.recomputeFPS] else []) := by
  have hst : (dispatchEvents s inp.events).start = s.start :=
    (dispatchEvents_counters inp.events s).2.2.1
  simp only [loopIter, h]
  rw [hst]
  split <;> simp

/-- Witness for `loop_iteration_order`: a single iteration with one pending
(quiet) key press and 100 ms elapsed produces exactly the poll, dispatch,
update, draw, finishFrame actions and no FPS recomputation. -/
theorem loop_iteration_order_witness :
    (loopIter (initLoopState 0) ⟨[⟨65, 0, 1, 0⟩], 100, none⟩).1 =
      [Act.pollEvents, Act.keyDispatch ⟨65, 0, 1, 0⟩,
       Act.update, Act.draw, Act.finishFrame] := by
  have h := loop_iteration_order (initLoopState 0) ⟨[⟨65, 0, 1, 0⟩], 100, none⟩ rfl
  simpa [initLoopState] using h

/-- Under a benign input the loop body raises nothing, leaves the close flag
as it found it, and increments the frame counter exactly once. -/
theorem loopIter_benign (s : LoopState) (inp : IterInput) (h : benignInput inp) :
    (loopIter s inp).2.2 = none ∧
    ((loopIter s inp).2.1).shouldClose = s.shouldClose ∧
    ((loopIter s inp).2.1).frame = s.frame + 1 := by
  obtain ⟨he, hq⟩ := h
  have hsc := dispatchEvents_shouldClose_of_not_escape inp.events s hq
  have hfr := (dispatchEvents_counters inp.events s).1
  simp only [loopIter, he]
  split
  · exact ⟨rfl, by simp [hsc], by simp [hfr]⟩
  · exact ⟨rfl, by simp [hsc], by simp [hfr]⟩

/-- Over benign inputs from a not-closed state, the loop executes every
scripted iteration, adding their number to the frame counter. -/
theorem runLoop_frame_benign (inps : List IterInput) (s : LoopState) :
    s.shouldClose = false → (∀ inp ∈ inps, benignInput inp) →
    ((runLoop inps s).2.1).frame = s.frame + inps.length := by
  induction inps generalizing s with
  | nil =>
    intro hc _
    simp [runLoop, hc]
  | cons inp rest ih =>
    intro hc hb
    have hli := loopIter_benign s inp (hb inp (List.mem_cons_self inp rest))
    have ih' := ih ((loopIter s inp).2.1) (hli.2.1.trans hc)
      (fun x hx => hb x (List.mem_cons_of_mem inp hx))
    simp only [runLoop, hc, if_false, Bool.false_eq_true, hli.1]
    rw [ih', hli.2.2, List.length_cons]
    push_cast
    ring

/-- Claim C6: the frame counter starts at 0, is incremented exactly once per
loop iteration (hence is monotonically increasing across the run),
`getFrame` is a pure read of it with no side effects, and after `N`
completed benign iterations `getFrame` returns `N`. -/
theorem frame_counter_correct :
    (∀ m : Int, (initLoopState m).frame = 0) ∧
    (∀ s : LoopState, getFrame s = s.frame) ∧
    (∀ (s : LoopState) (inp : IterInput), ((loopIter s inp).2.1).frame = s.frame + 1) ∧
    (∀ (m : Int) (inps : List IterInput), (∀ inp ∈ inps, benignInput inp) →
      getFrame ((runLoop inps (initLoopState m)).2.1) = inps.length) := by
  refine ⟨fun _ => rfl, fun _ => rfl, ?_, ?_⟩
  · intro s inp
    have hfr := (dispatchEvents_counters inp.events s).1
    cases hu : inp.updateErr with
    | some e => simp [loopIter, hu, hfr]
    | none =>
      simp only [loopIter, hu]
      split <;> simp [hfr]
  · intro m inps hb
    have h := runLoop_frame_benign inps (initLoopState m) rfl hb
    simpa [getFrame, initLoopState] using h

/-- Witness for `frame_counter_correct`: 1000 scripted benign iterations
leave the frame counter at exactly 1000. -/
theorem frame_counter_correct_witness :
    getFrame ((runLoop (List.replicate 1000 ⟨[], 0, none⟩) (initLoopState 0)).2.1) = 1000 := by
  have h := frame_counter_correct.2.2.2 0 (List.replicate 1000 ⟨[], 0, none⟩)
    (fun inp hinp => by
      rw [List.eq_of_mem_replicate hinp]
      exact ⟨rfl, fun e he => absurd he (List.not_mem_nil e)⟩)
  rw [List.length_replicate] at h
  exact h.trans (by norm_num)

/-- Claim C7: in an iteration whose hooks raise nothing, the FPS metric is
recomputed iff the elapsed time since the last measurement start reaches
2000 ms at that iteration's end; below the threshold the stored FPS value
and the measurement start are unchanged while the internal frame tally grows
by one; at or above the threshold the FPS value becomes the (tally, elapsed
milliseconds) pair it is computed from, the start time is reset to `now` and
the tally to 0. -/
theorem fps_recompute_iff (s : LoopState) (inp : IterInput) (h : inp.updateErr = none) :
    (Act.recomputeFPS ∈ (loopIter s inp).1 ↔ inp.now - s.start ≥ 2000) ∧
    (inp.now - s.start < 2000 →
      ((loopIter s inp).2.1).fps = s.fps ∧ ((loopIter s inp).2.1).start = s.start ∧
      ((loopIter s inp).2.1).framecount = s.framecount + 1) ∧
    (inp.now - s.start ≥ 2000 →
      ((loopIter s inp).2.1).fps = some (s.framecount + 1, inp.now - s.start) ∧
      ((loopIter s inp).2.1).start = inp.now ∧
      ((loopIter s inp).2.1).framecount = 0) := by
  obtain ⟨hfr, hfc, hst, hfp⟩ := dispatchEvents_counters inp.events s
  simp only [loopIter, h]
  rw [hst, hfc, hfp]
  split
  · rename_i hc
    refine ⟨by simp [hc], ?_, fun _ => ⟨rfl, rfl, rfl⟩⟩
    intro hlt
    exact absurd hlt (not_lt.mpr hc)
  · rename_i hc
    refine ⟨by simp [hc], fun _ => ⟨rfl, rfl, rfl⟩, ?_⟩
    intro hge
    exact absurd hge hc

/-- Witness for `fps_recompute_iff`: from the initial state, an iteration at
2500 ms recomputes the FPS pair to (1 frame, 2500 ms) and resets the tally. -/
theorem fps_recompute_iff_witness :
    ((loopIter (initLoopState 0) ⟨[], 2500, none⟩).2.1).fps = some (1, 2500) ∧
    ((loopIter (initLoopState 0) ⟨[], 2500, none⟩).2.1).framecount = 0 := by
  have h := (fps_recompute_iff (initLoopState 0) ⟨[], 2500, none⟩ rfl).2.2 (by decide)
  exact ⟨by simpa [initLoopState] using h.1, h.2.2⟩

/-- Loop-body traces contain no diagnostic message actions. -/
theorem loopIter_no_say (s : LoopState) (inp : IterInput) (m : String) :
    Act.say m ∉ (loopIter s inp).1 := by
  cases hu : inp.updateErr with
  | some e => simp [loopIter, hu]
  | none =>
    simp only [loopIter, hu]
    split <;> simp

/-- Whole-loop traces contain no diagnostic message actions. -/
theorem runLoop_no_say (inps : List IterInput) (s : LoopState) (m : String) :
    Act.say m ∉ (runLoop inps s).1 := by
  induction inps generalizing s with
  | nil =>
    unfold runLoop
    split <;> simp
  | cons inp rest ih =>
    unfold runLoop
    split
    · simp
    · cases hu : (loopIter s inp).2.2 with
      | some e =>
        simp only [hu]
        exact loopIter_no_say s inp m
      | none =>
        simp only [hu]
        intro hmem
        rcases List.mem_append.mp hmem with h₁ | h₂
        · exact loopIter_no_say s inp m h₁
        · exact ih ((loopIter s inp).2.1) h₂

/-- Case analysis of a simulated `run()`: exactly one of the five paths is
taken, and on each the returned value (and, where relevant, the emission of
the diagnostic message) is as the `catch` clause at lines 109-112 dictates. -/
theorem run_cases (env : RunEnv) :
    ((run env).outcome = Outcome.setupFailedGlew ∧ (run env).ret = RunReturn.returned 0) ∨
    ((run env).outcome = Outcome.setupFailedNullWindow ∧
      (run env).ret = RunReturn.returned 0) ∨
    ((run env).outcome = Outcome.closed ∧ (run env).ret = RunReturn.returned 0) ∨
    ((run env).outcome = Outcome.running ∧ (run env).ret = RunReturn.running) ∨
    (∃ m, (run env).outcome = Outcome.errored (CppError.runtimeError m) ∧
          (run env).ret = RunReturn.returned 0 ∧ Act.say m ∈ (run env).trace) ∨
    (∃ m, (run env).outcome = Outcome.errored (CppError.otherError m) ∧
          (run env).ret = RunReturn.uncaught (CppError.otherError m) ∧
          (∀ m₂, Act.say m₂ ∉ (run env).trace)) := by
  cases hg : env.glewInitFails with
  | true => left; simp [run, hg]
  | false =>
    cases hw : env.windowIsNull with
    | true => right; left; simp [run, hg, hw]
    | false =>
      cases hr : (runLoop env.iters (initLoopState env.startMillis)).2.2 with
      | closed => right; right; left; simp [run, hg, hw, hr]
      | exhausted => right; right; right; left; simp [run, hg, hw, hr]
      | errored e =>
        cases e with
        | runtimeError m =>
          right; right; right; right; left
          exact ⟨m, by simp [run, hg, hw, hr], by simp [run, hg, hw, hr],
                 by simp [run, hg, hw, hr]⟩
        | otherError m =>
          right; right; right; right; right
          refine ⟨m, by simp [run, hg, hw, hr], by simp [run, hg, hw, hr], ?_⟩
          intro m₂ hmem
          simp [run, hg, hw, hr] at hmem
          exact runLoop_no_say env.iters (initLoopState env.startMillis) m₂ hmem

/-- Claim C1 counterexample: when window creation returns a null handle,
`run` invokes the graphics shutdown routine zero times, not exactly once —
the guard that guarantees `shutdownGl` is installed only after `initGl`,
past the failing creation check, so the claimed single invocation is false
at this concrete input. -/
theorem creation_failure_shutdown_once_counterexample :
    ¬((run ⟨true, false, 0, []⟩).trace.count Act.shutdownGl = 1) := by
  decide

/-- Claim C1 (amended): if window/context creation fails (the creation call
returns a null handle) and `glewInit` does not itself fail first, `run()`
never invokes the graphics shutdown routine (`shutdownGl` is invoked zero
times, its guard being installed only after the creation check and `initGl`)
and never enters the iteration loop (`update`/`draw`/`finishFrame` are never
called) before returning. -/
theorem creation_failure_no_shutdown_no_loop (env : RunEnv)
    (hw : env.windowIsNull = true) (hg : env.glewInitFails = false) :
    (run env).trace.count Act.shutdownGl = 0 ∧
    Act.update ∉ (run env).trace ∧ Act.draw ∉ (run env).trace ∧
    Act.finishFrame ∉ (run env).trace := by
  unfold run
  rw [hw, hg]
  refine ⟨List.count_eq_zero.mpr ?_, ?_, ?_, ?_⟩ <;> simp

/-- Witness for `creation_failure_no_shutdown_no_loop` at a concrete
creation-failure environment. -/
theorem creation_failure_no_shutdown_no_loop_witness :
    (run ⟨true, false, 5, []⟩).trace.count Act.shutdownGl = 0 ∧
    Act.update ∉ (run ⟨true, false, 5, []⟩).trace ∧
    Act.draw ∉ (run ⟨true, false, 5, []⟩).trace ∧
    Act.finishFrame ∉ (run ⟨true, false, 5, []⟩).trace :=
  creation_failure_no_shutdown_no_loop ⟨true, false, 5, []⟩ rfl rfl

/-- Claim C9: `run()` invokes `postCreate` before checking whether window
creation succeeded, so when creation returns a null handle (and `glewInit`
does not fail first), `postCreate` is still executed with that null handle
before the creation failure is raised: the trace is exactly `preCreate`,
`createRenderingTarget` returning null, `postCreate` seeing the null
handle, then the creation-failure diagnostic. -/
theorem postCreate_runs_before_null_check (env : RunEnv)
    (hw : env.windowIsNull = true) (hg : env.glewInitFails = false) :
    (run env).trace = [Act.preCreate, Act.createRenderingTarget true,
      Act.postCreate true, Act.say "Unable to create OpenGL window"] ∧
    (run env).outcome = Outcome.setupFailedNullWindow := by
  unfold run
  rw [hw, hg]
  exact ⟨rfl, rfl⟩

/-- Witness for `postCreate_runs_before_null_check` at a concrete
creation-failure environment. -/
theorem postCreate_runs_before_null_check_witness :
    (run ⟨true, false, 7, []⟩).trace = [Act.preCreate, Act.createRenderingTarget true,
      Act.postCreate true, Act.say "Unable to create OpenGL window"] :=
  (postCreate_runs_before_null_check ⟨true, false, 7, []⟩ rfl rfl).1

/-- Claim C8: `run()` returns status code 0 both on normal exit (close flag
observed) and on a caught `std::runtime_error` during setup (null window,
`glewInit` failure) or the loop body; in the latter case the failure is
emitted as a message and swallowed, so the caller cannot distinguish the
outcomes from the return value. -/
theorem run_returns_zero (env : RunEnv) (m : String) :
    ((run env).outcome = Outcome.closed → (run env).ret = RunReturn.returned 0) ∧
    ((run env).outcome = Outcome.setupFailedNullWindow →
      (run env).ret = RunReturn.returned 0) ∧
    ((run env).outcome = Outcome.setupFailedGlew → (run env).ret = RunReturn.returned 0) ∧
    ((run env).outcome = Outcome.errored (CppError.runtimeError m) →
      (run env).ret = RunReturn.returned 0 ∧ Act.say m ∈ (run env).trace) := by
  rcases run_cases env with ⟨ho, hret⟩ | ⟨ho, hret⟩ | ⟨ho, hret⟩ | ⟨ho, hret⟩ |
    ⟨m₂, ho, hret, hsay⟩ | ⟨m₂, ho, hret, hsay⟩ <;>
    refine ⟨?_, ?_, ?_, ?_⟩ <;> intro h <;> simp_all

/-- Witness for `run_returns_zero`: a run closed by an escape press and a
run aborted by a `std::runtime_error` from the loop body both return 0. -/
theorem run_returns_zero_witness :
    (run ⟨false, false, 0, [⟨[⟨256, 0, 1, 0⟩], 100, none⟩]⟩).ret =
      RunReturn.returned 0 ∧
    (run ⟨false, false, 0, [⟨[], 100, some (CppError.runtimeError "boom")⟩]⟩).ret =
      RunReturn.returned 0 :=
  ⟨(run_returns_zero ⟨false, false, 0, [⟨[⟨256, 0, 1, 0⟩], 100, none⟩]⟩ "boom").1
      (by decide),
   ((run_returns_zero ⟨false, false, 0, [⟨[], 100, some (CppError.runtimeError "boom")⟩]⟩
      "boom").2.2.2 (by decide)).1⟩

/-- Claim C10: the top-level handler of `run()` catches only errors of the
generic runtime-error kind; an error of any other kind raised during the
loop body propagates out of `run()` uncaught — it is not logged (no
diagnostic message is emitted) and not converted to the status-code-0
return. -/
theorem other_error_uncaught (env : RunEnv) (m : String)
    (h : (run env).outcome = Outcome.errored (CppError.otherError m)) :
    (run env).ret = RunReturn.uncaught (CppError.otherError m) ∧
    (∀ m₂, Act.say m₂ ∉ (run env).trace) := by
  rcases run_cases env with ⟨ho, hret⟩ | ⟨ho, hret⟩ | ⟨ho, hret⟩ | ⟨ho, hret⟩ |
    ⟨m₂, ho, hret, hsay⟩ | ⟨m₂, ho, hret, hsay⟩ <;> simp_all

/-- Witness for `other_error_uncaught`: a non-runtime-error failure in the
loop body escapes `run()` to the caller. -/
theorem other_error_uncaught_witness :
    (run ⟨false, false, 0, [⟨[], 100, some (CppError.otherError "bad")⟩]⟩).ret =
      RunReturn.uncaught (CppError.otherError "bad") :=
  (other_error_uncaught ⟨false, false, 0, [⟨[], 100, some (CppError.otherError "bad")⟩]⟩
    "bad" (by decide)).1
